import Mathlib

/-!
Verification of the projection engine of `oaknorth-grants-on.py`
(the function `calculate_results`, lines 192-345 of the source).

The engine is a deterministic recurrence over the years 2024..2035.
We index years by their offset `n` from 2024 (so `n = 0` is year 2024,
`n = 1` is year 2025, ..., `n = 11` is year 2035).  All numbers are
modelled as exact rationals `ℚ`; the Python source computes with
floats, and every claim below is stated over exact arithmetic, as the
specification itself does ("exact, modulo floating-point tolerance").

The Python engine reads its parameters from module-level globals
(optionally overridden by arguments); here they are collected in a
`Params` structure.  The vesting dictionary `vested_shares_input` is
modelled as `ℕ → Option ℚ` keyed by calendar year: `none` models a
missing key, so `dict.get(year, d)` becomes `(f year).getD d`.  The
dictionary's values in the program are numbers produced by numeric
input widgets, so the defensive `is None` test on a present value
(lines 288 and 310) is dead and is absorbed by the `Option` model.
-/

/-- Parameters of procedure `calculate_results` (globals plus overrides,
source lines 192-207): growth rate, the two redemption rates, share
counts, prices and the year-keyed vesting map. -/
structure Params where
  growth_rate : ℚ
  common_redemption_rate : ℚ
  option_redemption_rate : ℚ
  total_common_shares : ℚ
  common_purchase_price : ℚ
  strike_price : ℚ
  total_grant_shares : ℚ
  vested_shares_input : ℕ → Option ℚ

/-- The `Share Price` series, source lines 217-219:
`results[2024]['Share Price'] = 6.00` and
`results[year]['Share Price'] = results[year-1]['Share Price'] * (1 + current_growth_rate)`
for year in 2025..2035.  `sharePrice p n` is the price of year `2024 + n`. -/
def sharePrice (p : Params) : ℕ → ℚ
  | 0 => 6
  | n + 1 => sharePrice p n * (1 + p.growth_rate)

/-- The common-share fields of one yearly record, source lines 222-268. -/
structure CommonRec where
  redeemed : ℚ            -- 'Common Shares Redeemed'
  cumRedeemed : ℚ         -- 'Cumulative Common Redeemed'
  unsold : ℚ              -- 'Unsold Common Shares'
  redemptionValue : ℚ     -- 'Common Redemption Value'
  cumRedemptionValue : ℚ  -- 'Cumulative Common Redemption Value'
  unsoldValue : ℚ         -- 'Value of Unsold Common Shares'
  totalValue : ℚ          -- 'Total Common Share Value'

/-- The common-share part of the yearly record of year `2024 + n`.
Case `0` is year 2024 (all fields initialised to 0 on lines 222-229,
then `Unsold Common Shares` set to `total_common_shares` on line 232);
case `1` is year 2025 (lines 234-244, no redemption in the first year);
case `n + 2` is a year in 2026..2035 (the loop of lines 247-268). -/
def commonRec (p : Params) : ℕ → CommonRec
  | 0 =>
      { redeemed := 0, cumRedeemed := 0, unsold := p.total_common_shares,
        redemptionValue := 0, cumRedemptionValue := 0, unsoldValue := 0, totalValue := 0 }
  | 1 =>
      let priceDiff := max 0 (sharePrice p 1 - p.common_purchase_price)
      let unsoldValue := priceDiff * p.total_common_shares
      { redeemed := 0, cumRedeemed := 0, unsold := p.total_common_shares,
        redemptionValue := 0, cumRedemptionValue := 0,
        unsoldValue := unsoldValue, totalValue := unsoldValue }
  | n + 2 =>
      let prev := commonRec p (n + 1)
      let redeemed := prev.unsold * p.common_redemption_rate
      let cumRedeemed := prev.cumRedeemed + redeemed
      let unsold := p.total_common_shares - cumRedeemed
      let priceDiff := max 0 (sharePrice p (n + 2) - p.common_purchase_price)
      let redemptionValue := priceDiff * redeemed
      let cumRedemptionValue := prev.cumRedemptionValue + redemptionValue
      let unsoldValue := priceDiff * unsold
      { redeemed := redeemed, cumRedeemed := cumRedeemed, unsold := unsold,
        redemptionValue := redemptionValue, cumRedemptionValue := cumRedemptionValue,
        unsoldValue := unsoldValue, totalValue := cumRedemptionValue + unsoldValue }

/-- The A-share/option fields of one yearly record, source lines 271-339. -/
structure OptionRec where
  vested : ℚ              -- 'Vested Shares'
  vestedUnsold : ℚ        -- 'Vested Unsold Shares'
  redeemed : ℚ            -- 'Redeemed Shares'
  cumRedeemed : ℚ         -- 'Cumulative Redeemed'
  unsold : ℚ              -- 'Unsold Shares'
  redemptionValue : ℚ     -- 'Redemption Value'
  cumRedemptionValue : ℚ  -- 'Cumulative Redemption Value'
  unsoldValue : ℚ         -- 'Value of Unsold Shares'
  totalValue : ℚ          -- 'Total Grant Value'

/-- The option part of the yearly record of year `2024 + n`.
Case `0` is year 2024 (fields initialised to 0 on lines 271-280, then
`Unsold Shares` set to `total_grant_shares` on line 283); case `1` is
year 2025 (lines 286-302: `vested_shares_input.get(2025, 0)` with the
range check of line 288 falling back to `min(60000, total_grant_shares)`);
case `n + 2` is a year in 2026..2035 (the loop of lines 305-339:
`vested_shares_input.get(year, vested_shares_input.get(year-1, 0))` with
the range check of line 310 falling back to
`min(results[year-1]['Vested Shares'] + 5000, total_grant_shares)`). -/
def optionRec (p : Params) : ℕ → OptionRec
  | 0 =>
      { vested := 0, vestedUnsold := 0, redeemed := 0, cumRedeemed := 0,
        unsold := p.total_grant_shares, redemptionValue := 0,
        cumRedemptionValue := 0, unsoldValue := 0, totalValue := 0 }
  | 1 =>
      let raw := (p.vested_shares_input 2025).getD 0
      let vested :=
        if raw < 0 ∨ raw > p.total_grant_shares then min 60000 p.total_grant_shares else raw
      let priceDiff := max 0 (sharePrice p 1 - p.strike_price)
      let unsoldValue := priceDiff * vested
      { vested := vested, vestedUnsold := vested, redeemed := 0, cumRedeemed := 0,
        unsold := p.total_grant_shares, redemptionValue := 0,
        cumRedemptionValue := 0, unsoldValue := unsoldValue, totalValue := unsoldValue }
  | n + 2 =>
      let prev := optionRec p (n + 1)
      let raw := (p.vested_shares_input (2024 + (n + 2))).getD
        ((p.vested_shares_input (2024 + (n + 1))).getD 0)
      let vested :=
        if raw < 0 ∨ raw > p.total_grant_shares
        then min (prev.vested + 5000) p.total_grant_shares else raw
      let redeemed := prev.vestedUnsold * p.option_redemption_rate
      let cumRedeemed := prev.cumRedeemed + redeemed
      let vestedUnsold := max 0 (vested - cumRedeemed)
      let unsold := p.total_grant_shares - cumRedeemed
      let priceDiff := max 0 (sharePrice p (n + 2) - p.strike_price)
      let redemptionValue := priceDiff * redeemed
      let cumRedemptionValue := prev.cumRedemptionValue + redemptionValue
      let unsoldValue := priceDiff * vestedUnsold
      { vested := vested, vestedUnsold := vestedUnsold, redeemed := redeemed,
        cumRedeemed := cumRedeemed, unsold := unsold,
        redemptionValue := redemptionValue, cumRedemptionValue := cumRedemptionValue,
        unsoldValue := unsoldValue, totalValue := cumRedemptionValue + unsoldValue }

/-- `Combined Total Value`, source lines 342-343, computed for the years
2025..2035 (offsets 1..11):
`results[year]['Combined Total Value'] = results[year]['Total Common Share Value'] + results[year]['Total Grant Value']`. -/
def combinedTotalValue (p : Params) (n : ℕ) : ℚ :=
  (commonRec p n).totalValue + (optionRec p n).totalValue

set_option maxRecDepth 10000

/-! ### Field equations of the recurrence (all definitional)

Each lemma below restates one assignment of the source loops
(lines 247-268 for common shares, lines 305-339 for options) and is
proved by `rfl`, i.e. it is literally what the embedded code computes. -/

lemma sharePrice_zero (p : Params) : sharePrice p 0 = 6 := rfl

lemma sharePrice_succ (p : Params) (n : ℕ) :
    sharePrice p (n + 1) = sharePrice p n * (1 + p.growth_rate) := rfl

lemma commonRec_redeemed_succ (p : Params) (n : ℕ) :
    (commonRec p (n + 2)).redeemed = (commonRec p (n + 1)).unsold * p.common_redemption_rate := rfl

lemma commonRec_cumRedeemed_succ (p : Params) (n : ℕ) :
    (commonRec p (n + 2)).cumRedeemed =
      (commonRec p (n + 1)).cumRedeemed + (commonRec p (n + 2)).redeemed := rfl

lemma commonRec_unsold_succ (p : Params) (n : ℕ) :
    (commonRec p (n + 2)).unsold =
      p.total_common_shares - (commonRec p (n + 2)).cumRedeemed := rfl

lemma commonRec_redemptionValue_succ (p : Params) (n : ℕ) :
    (commonRec p (n + 2)).redemptionValue =
      max 0 (sharePrice p (n + 2) - p.common_purchase_price) * (commonRec p (n + 2)).redeemed := rfl

lemma commonRec_cumRedemptionValue_succ (p : Params) (n : ℕ) :
    (commonRec p (n + 2)).cumRedemptionValue =
      (commonRec p (n + 1)).cumRedemptionValue + (commonRec p (n + 2)).redemptionValue := rfl

lemma commonRec_unsoldValue_succ (p : Params) (n : ℕ) :
    (commonRec p (n + 2)).unsoldValue =
      max 0 (sharePrice p (n + 2) - p.common_purchase_price) * (commonRec p (n + 2)).unsold := rfl

lemma commonRec_totalValue_succ (p : Params) (n : ℕ) :
    (commonRec p (n + 2)).totalValue =
      (commonRec p (n + 2)).cumRedemptionValue + (commonRec p (n + 2)).unsoldValue := rfl

lemma optionRec_vested_succ (p : Params) (n : ℕ) :
    (optionRec p (n + 2)).vested =
      (if (p.vested_shares_input (2024 + (n + 2))).getD
            ((p.vested_shares_input (2024 + (n + 1))).getD 0) < 0 ∨
          (p.vested_shares_input (2024 + (n + 2))).getD
            ((p.vested_shares_input (2024 + (n + 1))).getD 0) > p.total_grant_shares
       then min ((optionRec p (n + 1)).vested + 5000) p.total_grant_shares
       else (p.vested_shares_input (2024 + (n + 2))).getD
            ((p.vested_shares_input (2024 + (n + 1))).getD 0)) := rfl

lemma optionRec_redeemed_succ (p : Params) (n : ℕ) :
    (optionRec p (n + 2)).redeemed =
      (optionRec p (n + 1)).vestedUnsold * p.option_redemption_rate := rfl

lemma optionRec_cumRedeemed_succ (p : Params) (n : ℕ) :
    (optionRec p (n + 2)).cumRedeemed =
      (optionRec p (n + 1)).cumRedeemed + (optionRec p (n + 2)).redeemed := rfl

lemma optionRec_vestedUnsold_succ (p : Params) (n : ℕ) :
    (optionRec p (n + 2)).vestedUnsold =
      max 0 ((optionRec p (n + 2)).vested - (optionRec p (n + 2)).cumRedeemed) := rfl

lemma optionRec_unsold_succ (p : Params) (n : ℕ) :
    (optionRec p (n + 2)).unsold =
      p.total_grant_shares - (optionRec p (n + 2)).cumRedeemed := rfl

lemma optionRec_redemptionValue_succ (p : Params) (n : ℕ) :
    (optionRec p (n + 2)).redemptionValue =
      max 0 (sharePrice p (n + 2) - p.strike_price) * (optionRec p (n + 2)).redeemed := rfl

lemma optionRec_cumRedemptionValue_succ (p : Params) (n : ℕ) :
    (optionRec p (n + 2)).cumRedemptionValue =
      (optionRec p (n + 1)).cumRedemptionValue + (optionRec p (n + 2)).redemptionValue := rfl

lemma optionRec_unsoldValue_succ (p : Params) (n : ℕ) :
    (optionRec p (n + 2)).unsoldValue =
      max 0 (sharePrice p (n + 2) - p.strike_price) * (optionRec p (n + 2)).vestedUnsold := rfl

lemma optionRec_totalValue_succ (p : Params) (n : ℕ) :
    (optionRec p (n + 2)).totalValue =
      (optionRec p (n + 2)).cumRedemptionValue + (optionRec p (n + 2)).unsoldValue := rfl

/-! ### Invariant lemmas -/

/-- The share-price series is positive as soon as `1 + growth_rate > 0`. -/
lemma sharePrice_pos (p : Params) (hg : -1 < p.growth_rate) : ∀ n, 0 < sharePrice p n
  | 0 => by norm_num [sharePrice]
  | n + 1 => by
      rw [sharePrice_succ]
      exact mul_pos (sharePrice_pos p hg n) (by linarith)

/-- Conservation of common shares: in every year,
cumulative redeemed plus unsold equals the total (no hypotheses needed:
`Unsold Common Shares` is defined as the difference on line 255). -/
lemma commonRec_conserve (p : Params) :
    ∀ n, (commonRec p n).cumRedeemed + (commonRec p n).unsold = p.total_common_shares
  | 0 => by simp [commonRec]
  | 1 => by simp [commonRec]
  | n + 2 => by simp [commonRec]

/-- Non-negativity of every common-share field, by induction along the years. -/
lemma commonRec_nonneg (p : Params) (h0 : 0 ≤ p.common_redemption_rate)
    (h1 : p.common_redemption_rate ≤ 1) (ht : 0 ≤ p.total_common_shares) :
    ∀ n, 0 ≤ (commonRec p n).redeemed ∧ 0 ≤ (commonRec p n).cumRedeemed ∧
      0 ≤ (commonRec p n).unsold ∧ 0 ≤ (commonRec p n).redemptionValue ∧
      0 ≤ (commonRec p n).cumRedemptionValue ∧ 0 ≤ (commonRec p n).unsoldValue ∧
      0 ≤ (commonRec p n).totalValue
  | 0 => by simp [commonRec]; exact ht
  | 1 => by
      refine ⟨le_refl 0, le_refl 0, ht, le_refl 0, le_refl 0, ?_, ?_⟩ <;>
        exact mul_nonneg (le_max_left 0 _) ht
  | n + 2 => by
      obtain ⟨ihr, ihc, ihu, ihrv, ihcrv, ihuv, ihtv⟩ := commonRec_nonneg p h0 h1 ht (n + 1)
      have hconv := commonRec_conserve p (n + 1)
      have hr : 0 ≤ (commonRec p (n + 2)).redeemed := by
        rw [commonRec_redeemed_succ]; exact mul_nonneg ihu h0
      have hc : 0 ≤ (commonRec p (n + 2)).cumRedeemed := by
        rw [commonRec_cumRedeemed_succ]; exact add_nonneg ihc hr
      have hu : 0 ≤ (commonRec p (n + 2)).unsold := by
        rw [commonRec_unsold_succ, commonRec_cumRedeemed_succ, commonRec_redeemed_succ]
        have hmul : 0 ≤ (commonRec p (n + 1)).unsold * (1 - p.common_redemption_rate) :=
          mul_nonneg ihu (by linarith)
        nlinarith [hconv]
      have hrv : 0 ≤ (commonRec p (n + 2)).redemptionValue := by
        rw [commonRec_redemptionValue_succ]; exact mul_nonneg (le_max_left 0 _) hr
      have hcrv : 0 ≤ (commonRec p (n + 2)).cumRedemptionValue := by
        rw [commonRec_cumRedemptionValue_succ]; exact add_nonneg ihcrv hrv
      have huv : 0 ≤ (commonRec p (n + 2)).unsoldValue := by
        rw [commonRec_unsoldValue_succ]; exact mul_nonneg (le_max_left 0 _) hu
      have htv : 0 ≤ (commonRec p (n + 2)).totalValue := by
        rw [commonRec_totalValue_succ]; exact add_nonneg hcrv huv
      exact ⟨hr, hc, hu, hrv, hcrv, huv, htv⟩

/-- The vested count actually used by the engine always lies in
`[0, total_grant_shares]`, for arbitrary (even malformed or missing)
vesting input: in-range supplied values pass the range check unchanged,
and both fallbacks (`min(60000, total)` on line 289 and
`min(previous vested + 5000, total)` on line 312) land in the interval. -/
lemma optionRec_vested_bounds (p : Params) (ht : 0 ≤ p.total_grant_shares) :
    ∀ n, 0 ≤ (optionRec p n).vested ∧ (optionRec p n).vested ≤ p.total_grant_shares
  | 0 => ⟨le_refl 0, ht⟩
  | 1 => by
      simp only [optionRec]
      split
      · exact ⟨le_min (by norm_num) ht, min_le_right _ _⟩
      · rename_i h
        push_neg at h
        exact ⟨h.1, h.2⟩
  | n + 2 => by
      obtain ⟨ih0, ih1⟩ := optionRec_vested_bounds p ht (n + 1)
      rw [optionRec_vested_succ]
      split
      · exact ⟨le_min (by linarith) ht, min_le_right _ _⟩
      · rename_i h
        push_neg at h
        exact ⟨h.1, h.2⟩

/-- Cumulative redeemed options and the vested-unsold balance are
non-negative, and their sum never exceeds `total_grant_shares`. -/
lemma optionRec_cum_inv (p : Params) (h0 : 0 ≤ p.option_redemption_rate)
    (h1 : p.option_redemption_rate ≤ 1) (ht : 0 ≤ p.total_grant_shares) :
    ∀ n, 0 ≤ (optionRec p n).cumRedeemed ∧ 0 ≤ (optionRec p n).vestedUnsold ∧
      (optionRec p n).cumRedeemed + (optionRec p n).vestedUnsold ≤ p.total_grant_shares
  | 0 => ⟨le_refl 0, le_refl 0, by simpa [optionRec] using ht⟩
  | 1 => by
      obtain ⟨hv0, hv1⟩ := optionRec_vested_bounds p ht 1
      refine ⟨le_refl 0, ?_, ?_⟩
      · simpa [optionRec] using hv0
      · simpa [optionRec] using hv1
  | n + 2 => by
      obtain ⟨ihc, ihvu, ihsum⟩ := optionRec_cum_inv p h0 h1 ht (n + 1)
      obtain ⟨hv0, hv1⟩ := optionRec_vested_bounds p ht (n + 2)
      have hred : 0 ≤ (optionRec p (n + 2)).redeemed := by
        rw [optionRec_redeemed_succ]; exact mul_nonneg ihvu h0
      have hc : 0 ≤ (optionRec p (n + 2)).cumRedeemed := by
        rw [optionRec_cumRedeemed_succ]; exact add_nonneg ihc hred
      have hcle : (optionRec p (n + 2)).cumRedeemed ≤ p.total_grant_shares := by
        rw [optionRec_cumRedeemed_succ, optionRec_redeemed_succ]
        nlinarith [mul_nonneg ihvu (sub_nonneg.mpr h1)]
      refine ⟨hc, ?_, ?_⟩
      · rw [optionRec_vestedUnsold_succ]; exact le_max_left 0 _
      · rw [optionRec_vestedUnsold_succ]
        rcases max_cases 0 ((optionRec p (n + 2)).vested - (optionRec p (n + 2)).cumRedeemed)
          with ⟨hm, _⟩ | ⟨hm, _⟩ <;> rw [hm]
        · simpa using hcle
        · linarith

/-- Non-negativity of every option-side field, by induction along the years. -/
lemma optionRec_nonneg (p : Params) (h0 : 0 ≤ p.option_redemption_rate)
    (h1 : p.option_redemption_rate ≤ 1) (ht : 0 ≤ p.total_grant_shares) :
    ∀ n, 0 ≤ (optionRec p n).vested ∧ 0 ≤ (optionRec p n).vestedUnsold ∧
      0 ≤ (optionRec p n).redeemed ∧ 0 ≤ (optionRec p n).cumRedeemed ∧
      0 ≤ (optionRec p n).unsold ∧ 0 ≤ (optionRec p n).redemptionValue ∧
      0 ≤ (optionRec p n).cumRedemptionValue ∧ 0 ≤ (optionRec p n).unsoldValue ∧
      0 ≤ (optionRec p n).totalValue
  | 0 => ⟨le_refl 0, le_refl 0, le_refl 0, le_refl 0, by simpa [optionRec] using ht,
      le_refl 0, le_refl 0, le_refl 0, le_refl 0⟩
  | 1 => by
      obtain ⟨hv0, _⟩ := optionRec_vested_bounds p ht 1
      have huv : 0 ≤ (optionRec p 1).unsoldValue := by
        obtain ⟨hv0', _⟩ := optionRec_vested_bounds p ht 1
        show 0 ≤ (optionRec p 1).unsoldValue
        have : (optionRec p 1).unsoldValue =
            max 0 (sharePrice p 1 - p.strike_price) * (optionRec p 1).vested := by
          simp only [optionRec]
        rw [this]
        exact mul_nonneg (le_max_left 0 _) hv0'
      refine ⟨hv0, ?_, le_refl 0, le_refl 0, by simpa [optionRec] using ht, le_refl 0,
        le_refl 0, huv, ?_⟩
      · simpa [optionRec] using hv0
      · have : (optionRec p 1).totalValue = (optionRec p 1).unsoldValue := rfl
        rw [this]; exact huv
  | n + 2 => by
      obtain ⟨_, ihvu, _, ihc, _, _, ihcrv, _, _⟩ := optionRec_nonneg p h0 h1 ht (n + 1)
      obtain ⟨hv0, _⟩ := optionRec_vested_bounds p ht (n + 2)
      obtain ⟨hc2, hvu2, hsum2⟩ := optionRec_cum_inv p h0 h1 ht (n + 2)
      have hred : 0 ≤ (optionRec p (n + 2)).redeemed := by
        rw [optionRec_redeemed_succ]; exact mul_nonneg ihvu h0
      have hunsold : 0 ≤ (optionRec p (n + 2)).unsold := by
        rw [optionRec_unsold_succ]; linarith
      have hrv : 0 ≤ (optionRec p (n + 2)).redemptionValue := by
        rw [optionRec_redemptionValue_succ]; exact mul_nonneg (le_max_left 0 _) hred
      have hcrv : 0 ≤ (optionRec p (n + 2)).cumRedemptionValue := by
        rw [optionRec_cumRedemptionValue_succ]; exact add_nonneg ihcrv hrv
      have huv : 0 ≤ (optionRec p (n + 2)).unsoldValue := by
        rw [optionRec_unsoldValue_succ]; exact mul_nonneg (le_max_left 0 _) hvu2
      have htv : 0 ≤ (optionRec p (n + 2)).totalValue := by
        rw [optionRec_totalValue_succ]; exact add_nonneg hcrv huv
      exact ⟨hv0, hvu2, hred, hc2, hunsold, hrv, hcrv, huv, htv⟩

/-! ### Concrete parameter sets (the UI defaults of source lines 20-123) -/

/-- The default vesting schedule built by the UI (lines 103-123) with the
default `total_grant_shares = 100000`: 60000/70000/80000/90000 for
2025-2028 and 100000 for 2029-2035. -/
def defaultSched : ℕ → Option ℚ := fun y =>
  if y = 2025 then some 60000
  else if y = 2026 then some 70000
  else if y = 2027 then some 80000
  else if y = 2028 then some 90000
  else if 2029 ≤ y ∧ y ≤ 2035 then some 100000
  else none

/-- The UI default parameters: 20% growth, 5% redemption on both sides,
30000 common shares at £2.00, strike £6.00, 100000 grant shares. -/
def defaultParams : Params :=
  { growth_rate := 1/5, common_redemption_rate := 1/20, option_redemption_rate := 1/20,
    total_common_shares := 30000, common_purchase_price := 2, strike_price := 6,
    total_grant_shares := 100000, vested_shares_input := defaultSched }

/-- Default parameters with a malformed vesting entry for 2026
(200000, which exceeds `total_grant_shares = 100000`) and no entries
for the later years. -/
def clampCexParams : Params :=
  { defaultParams with
      vested_shares_input := fun y =>
        if y = 2025 then some 60000 else if y = 2026 then some 200000 else none }

/-- Like `clampCexParams` but with the 2025 vesting entry lowered to
40000, keeping the same malformed 2026 entry (200000). -/
def clampCexParams2 : Params :=
  { defaultParams with
      vested_shares_input := fun y =>
        if y = 2025 then some 40000 else if y = 2026 then some 200000 else none }

/-- Every value of the default vesting schedule lies in `[0, 100000]`. -/
lemma defaultSched_mem (y : ℕ) (v : ℚ) (h : defaultSched y = some v) :
    0 ≤ v ∧ v ≤ 100000 := by
  unfold defaultSched at h
  split_ifs at h <;> injection h with h' <;> subst h' <;> norm_num

/-! ### Claim theorems -/

/-- C4: for every parameter set and every year y in 2025..2035 (offset
1..11), the common-share fields satisfy
`Cumulative Common Redeemed[y] + Unsold Common Shares[y] = total_common_shares`
exactly, over exact arithmetic. -/
theorem spec_c4_common_conservation (p : Params) (n : ℕ) (h1 : 1 ≤ n) (h11 : n ≤ 11) :
    (commonRec p n).cumRedeemed + (commonRec p n).unsold = p.total_common_shares :=
  commonRec_conserve p n

/-- Witness for C4 at the default parameters and year 2026. -/
theorem spec_c4_common_conservation_witness :
    (1 : ℕ) ≤ 2 ∧ (2 : ℕ) ≤ 11 ∧
      (commonRec defaultParams 2).cumRedeemed + (commonRec defaultParams 2).unsold =
        defaultParams.total_common_shares :=
  ⟨by norm_num, by norm_num, spec_c4_common_conservation defaultParams 2 (by norm_num) (by norm_num)⟩

/-- C5: for every input, the share-price series satisfies
`price[2024] = 6.00` exactly and `price[y] = price[y-1] * (1 + growth_rate)`
for every y in 2025..2035 (offsets n+1 with n < 11). -/
theorem spec_c5_price_recurrence (p : Params) :
    sharePrice p 0 = 6 ∧
      ∀ n, n < 11 → sharePrice p (n + 1) = sharePrice p n * (1 + p.growth_rate) :=
  ⟨rfl, fun _ _ => rfl⟩

/-- Witness for C5 at the default parameters and year 2028. -/
theorem spec_c5_price_recurrence_witness :
    sharePrice defaultParams 0 = 6 ∧ (3 : ℕ) < 11 ∧
      sharePrice defaultParams 4 = sharePrice defaultParams 3 * (1 + defaultParams.growth_rate) :=
  ⟨(spec_c5_price_recurrence defaultParams).1, by norm_num,
    (spec_c5_price_recurrence defaultParams).2 3 (by norm_num)⟩

/-- C7: for every input and every year y in 2025..2035 (offset 1..11),
`Combined Total Value[y] = Total Common Share Value[y] + Total Grant Value[y]`. -/
theorem spec_c7_combined_sum (p : Params) (n : ℕ) (h1 : 1 ≤ n) (h11 : n ≤ 11) :
    combinedTotalValue p n = (commonRec p n).totalValue + (optionRec p n).totalValue :=
  rfl

/-- Witness for C7 at the default parameters and year 2030. -/
theorem spec_c7_combined_sum_witness :
    (1 : ℕ) ≤ 6 ∧ (6 : ℕ) ≤ 11 ∧
      combinedTotalValue defaultParams 6 =
        (commonRec defaultParams 6).totalValue + (optionRec defaultParams 6).totalValue :=
  ⟨by norm_num, by norm_num, spec_c7_combined_sum defaultParams 6 (by norm_num) (by norm_num)⟩

/-- C3 counterexample: the claim describes the substituted fallback as
"the carry-forward of the prior year's vested count, or a fixed
default".  At year 2026 with an out-of-range entry (200000 against
`total_grant_shares = 100000`), the engine substitutes 65000 — which is
not the prior year's vested count (60000), and not a fixed default
either: lowering only the 2025 entry to 40000 changes the substituted
value to 45000.  The actual rule (line 312) is
`min(prior year's Vested Shares + 5000, total_grant_shares)`. -/
theorem spec_c3_counterexample :
    clampCexParams.vested_shares_input 2026 = some 200000 ∧
      clampCexParams2.vested_shares_input 2026 = some 200000 ∧
      clampCexParams.total_grant_shares < 200000 ∧
      (optionRec clampCexParams 1).vested = 60000 ∧
      (optionRec clampCexParams 2).vested = 65000 ∧
      (optionRec clampCexParams 2).vested ≠ (optionRec clampCexParams 1).vested ∧
      (optionRec clampCexParams2 2).vested = 45000 ∧
      (optionRec clampCexParams2 2).vested ≠ (optionRec clampCexParams 2).vested := by
  refine ⟨?_, ?_, ?_, ?_, ?_, ?_, ?_, ?_⟩ <;>
    norm_num [optionRec, clampCexParams, clampCexParams2, defaultParams]

/-- C3 as amended: for any vesting input whatsoever (missing years,
negative or too-large values included), the engine substitutes silently
— the embedded `optionRec` is a total function, so a full table is
always produced and no failure propagates — and (i) the vested count
used for each year 2025..2035 lies in `[0, total_grant_shares]`;
(ii) an out-of-range 2025 value is replaced by the fixed default
`min(60000, total_grant_shares)` (line 289); (iii) an out-of-range
value for a year 2026..2035 (after the missing-key lookup
`get(year, get(year-1, 0))`) is replaced by
`min(prior year's Vested Shares + 5000, total_grant_shares)` (line 312),
not by a carry-forward of the prior vested count nor by a fixed
default. -/
theorem spec_c3_fallback_rule (p : Params) (ht : 0 < p.total_grant_shares) :
    (∀ n, 1 ≤ n → n ≤ 11 →
      0 ≤ (optionRec p n).vested ∧ (optionRec p n).vested ≤ p.total_grant_shares) ∧
    ((p.vested_shares_input 2025).getD 0 < 0 ∨
        (p.vested_shares_input 2025).getD 0 > p.total_grant_shares →
      (optionRec p 1).vested = min 60000 p.total_grant_shares) ∧
    (∀ n, n ≤ 9 →
      (p.vested_shares_input (2024 + (n + 2))).getD
          ((p.vested_shares_input (2024 + (n + 1))).getD 0) < 0 ∨
        (p.vested_shares_input (2024 + (n + 2))).getD
          ((p.vested_shares_input (2024 + (n + 1))).getD 0) > p.total_grant_shares →
      (optionRec p (n + 2)).vested =
        min ((optionRec p (n + 1)).vested + 5000) p.total_grant_shares) := by
  refine ⟨fun n _ _ => optionRec_vested_bounds p (le_of_lt ht) n, ?_, ?_⟩
  · intro h
    show (if _ then _ else _) = _
    rw [if_pos h]
  · intro n _ h
    rw [optionRec_vested_succ, if_pos h]

/-- Witness for the amended C3 at parameters whose 2026 vesting entry
(200000) exceeds `total_grant_shares` and whose later entries are
missing: the substituted value for 2026 is `min(60000 + 5000, 100000)`
and lies in range. -/
theorem spec_c3_fallback_rule_witness :
    (0 : ℚ) < clampCexParams.total_grant_shares ∧
      (clampCexParams.vested_shares_input (2024 + (0 + 2))).getD
        ((clampCexParams.vested_shares_input (2024 + (0 + 1))).getD 0) >
          clampCexParams.total_grant_shares ∧
      (0 ≤ (optionRec clampCexParams 2).vested ∧
        (optionRec clampCexParams 2).vested ≤ clampCexParams.total_grant_shares) ∧
      (optionRec clampCexParams (0 + 2)).vested =
        min ((optionRec clampCexParams (0 + 1)).vested + 5000)
          clampCexParams.total_grant_shares :=
  ⟨by norm_num [clampCexParams, defaultParams],
    by norm_num [clampCexParams, defaultParams],
    (spec_c3_fallback_rule clampCexParams
      (by norm_num [clampCexParams, defaultParams])).1 2 (by norm_num) (by norm_num),
    (spec_c3_fallback_rule clampCexParams
      (by norm_num [clampCexParams, defaultParams])).2.2 0 (by norm_num)
      (Or.inr (by norm_num [clampCexParams, defaultParams]))⟩

/-- Cumulative redeemed options and the vested-unsold balance are
non-negative whenever the redemption rate is (only) non-negative. -/
lemma optionRec_cum_nonneg (p : Params) (h0 : 0 ≤ p.option_redemption_rate)
    (ht : 0 ≤ p.total_grant_shares) :
    ∀ n, 0 ≤ (optionRec p n).cumRedeemed ∧ 0 ≤ (optionRec p n).vestedUnsold
  | 0 => ⟨le_refl 0, le_refl 0⟩
  | 1 => ⟨le_refl 0, by simpa [optionRec] using (optionRec_vested_bounds p ht 1).1⟩
  | n + 2 => by
      obtain ⟨ihc, ihvu⟩ := optionRec_cum_nonneg p h0 ht (n + 1)
      constructor
      · rw [optionRec_cumRedeemed_succ, optionRec_redeemed_succ]
        exact add_nonneg ihc (mul_nonneg ihvu h0)
      · rw [optionRec_vestedUnsold_succ]
        exact le_max_left 0 _

/-- C9: with a non-negative option redemption rate (and the data-model
domain `total_grant_shares > 0`), each year's
`Vested Unsold Shares` never exceeds that year's `Vested Shares`,
because the cumulative redeemed amount subtracted inside the
`max(0, ...)` floor is never negative. -/
theorem spec_c9_vested_unsold_le_vested (p : Params)
    (h0 : 0 ≤ p.option_redemption_rate) (ht : 0 < p.total_grant_shares) :
    ∀ n, 1 ≤ n → n ≤ 11 →
      (optionRec p n).vestedUnsold ≤ (optionRec p n).vested := by
  intro n h1 _
  match n, h1 with
  | 1, _ => exact le_of_eq rfl
  | (m + 2), _ =>
      have hc := (optionRec_cum_nonneg p h0 (le_of_lt ht) (m + 2)).1
      have hv := (optionRec_vested_bounds p (le_of_lt ht) (m + 2)).1
      rw [optionRec_vestedUnsold_succ]
      exact max_le hv (by linarith)

/-- Witness for C9 at the default parameters and year 2029. -/
theorem spec_c9_vested_unsold_le_vested_witness :
    (0 : ℚ) ≤ defaultParams.option_redemption_rate ∧
      (0 : ℚ) < defaultParams.total_grant_shares ∧ (1 : ℕ) ≤ 5 ∧ (5 : ℕ) ≤ 11 ∧
      (optionRec defaultParams 5).vestedUnsold ≤ (optionRec defaultParams 5).vested :=
  ⟨by norm_num [defaultParams], by norm_num [defaultParams], by norm_num, by norm_num,
    spec_c9_vested_unsold_le_vested defaultParams (by norm_num [defaultParams])
      (by norm_num [defaultParams]) 5 (by norm_num) (by norm_num)⟩

/-- C10: with a common redemption rate in `[0, 1]` and a non-negative
total, `Unsold Common Shares` is non-increasing from each year
2025..2034 (offset n+1, n ≤ 9) to the next. -/
theorem spec_c10_unsold_nonincreasing (p : Params)
    (h0 : 0 ≤ p.common_redemption_rate) (h1 : p.common_redemption_rate ≤ 1)
    (ht : 0 ≤ p.total_common_shares) :
    ∀ n, n ≤ 9 → (commonRec p (n + 2)).unsold ≤ (commonRec p (n + 1)).unsold := by
  intro n _
  obtain ⟨_, _, hu, _⟩ := commonRec_nonneg p h0 h1 ht (n + 1)
  have hconv := commonRec_conserve p (n + 1)
  rw [commonRec_unsold_succ, commonRec_cumRedeemed_succ, commonRec_redeemed_succ]
  have := mul_nonneg hu h0
  linarith

/-- Witness for C10 at the default parameters, from 2027 to 2028. -/
theorem spec_c10_unsold_nonincreasing_witness :
    (0 : ℚ) ≤ defaultParams.common_redemption_rate ∧
      defaultParams.common_redemption_rate ≤ 1 ∧
      (0 : ℚ) ≤ defaultParams.total_common_shares ∧ (2 : ℕ) ≤ 9 ∧
      (commonRec defaultParams 4).unsold ≤ (commonRec defaultParams 3).unsold :=
  ⟨by norm_num [defaultParams], by norm_num [defaultParams], by norm_num [defaultParams],
    by norm_num,
    spec_c10_unsold_nonincreasing defaultParams (by norm_num [defaultParams])
      (by norm_num [defaultParams]) (by norm_num [defaultParams]) 2 (by norm_num)⟩

/-- C1: with growth above -100%, redemption rates in `[0, 1]`,
non-negative `total_common_shares`, positive `total_grant_shares` and all
supplied vested counts in `[0, total_grant_shares]`, every monetary and
share-count field of every yearly record 2024..2035 (offsets 0..11) is
non-negative — including the option-side `Unsold Shares`, computed on
line 326 as `total_grant_shares - Cumulative Redeemed` without an
explicit floor, and `Combined Total Value` for 2025..2035. -/
theorem spec_c1_all_fields_nonneg (p : Params)
    (hg : -1 < p.growth_rate)
    (hc0 : 0 ≤ p.common_redemption_rate) (hc1 : p.common_redemption_rate ≤ 1)
    (ho0 : 0 ≤ p.option_redemption_rate) (ho1 : p.option_redemption_rate ≤ 1)
    (htc : 0 ≤ p.total_common_shares) (htg : 0 < p.total_grant_shares)
    (hvest : ∀ y v, p.vested_shares_input y = some v → 0 ≤ v ∧ v ≤ p.total_grant_shares) :
    ∀ n, n ≤ 11 →
      0 ≤ sharePrice p n ∧
      (0 ≤ (commonRec p n).redeemed ∧ 0 ≤ (commonRec p n).cumRedeemed ∧
        0 ≤ (commonRec p n).unsold ∧ 0 ≤ (commonRec p n).redemptionValue ∧
        0 ≤ (commonRec p n).cumRedemptionValue ∧ 0 ≤ (commonRec p n).unsoldValue ∧
        0 ≤ (commonRec p n).totalValue) ∧
      (0 ≤ (optionRec p n).vested ∧ 0 ≤ (optionRec p n).vestedUnsold ∧
        0 ≤ (optionRec p n).redeemed ∧ 0 ≤ (optionRec p n).cumRedeemed ∧
        0 ≤ (optionRec p n).unsold ∧ 0 ≤ (optionRec p n).redemptionValue ∧
        0 ≤ (optionRec p n).cumRedemptionValue ∧ 0 ≤ (optionRec p n).unsoldValue ∧
        0 ≤ (optionRec p n).totalValue) ∧
      (1 ≤ n → 0 ≤ combinedTotalValue p n) := by
  intro n _
  have hcom := commonRec_nonneg p hc0 hc1 htc n
  have hopt := optionRec_nonneg p ho0 ho1 (le_of_lt htg) n
  refine ⟨le_of_lt (sharePrice_pos p hg n), hcom, hopt, fun _ => ?_⟩
  exact add_nonneg hcom.2.2.2.2.2.2 hopt.2.2.2.2.2.2.2.2

/-- Witness for C1 at the default parameters and year 2026. -/
theorem spec_c1_all_fields_nonneg_witness :
    ((-1 : ℚ) < defaultParams.growth_rate) ∧
      ((0 : ℚ) ≤ defaultParams.common_redemption_rate) ∧
      (defaultParams.common_redemption_rate ≤ 1) ∧
      ((0 : ℚ) ≤ defaultParams.option_redemption_rate) ∧
      (defaultParams.option_redemption_rate ≤ 1) ∧
      ((0 : ℚ) ≤ defaultParams.total_common_shares) ∧
      ((0 : ℚ) < defaultParams.total_grant_shares) ∧ ((2 : ℕ) ≤ 11) ∧
      (0 ≤ sharePrice defaultParams 2 ∧
        (0 ≤ (commonRec defaultParams 2).redeemed ∧
          0 ≤ (commonRec defaultParams 2).cumRedeemed ∧
          0 ≤ (commonRec defaultParams 2).unsold ∧
          0 ≤ (commonRec defaultParams 2).redemptionValue ∧
          0 ≤ (commonRec defaultParams 2).cumRedemptionValue ∧
          0 ≤ (commonRec defaultParams 2).unsoldValue ∧
          0 ≤ (commonRec defaultParams 2).totalValue) ∧
        (0 ≤ (optionRec defaultParams 2).vested ∧
          0 ≤ (optionRec defaultParams 2).vestedUnsold ∧
          0 ≤ (optionRec defaultParams 2).redeemed ∧
          0 ≤ (optionRec defaultParams 2).cumRedeemed ∧
          0 ≤ (optionRec defaultParams 2).unsold ∧
          0 ≤ (optionRec defaultParams 2).redemptionValue ∧
          0 ≤ (optionRec defaultParams 2).cumRedemptionValue ∧
          0 ≤ (optionRec defaultParams 2).unsoldValue ∧
          0 ≤ (optionRec defaultParams 2).totalValue) ∧
        (1 ≤ 2 → 0 ≤ combinedTotalValue defaultParams 2)) :=
  ⟨by norm_num [defaultParams], by norm_num [defaultParams], by norm_num [defaultParams],
    by norm_num [defaultParams], by norm_num [defaultParams], by norm_num [defaultParams],
    by norm_num [defaultParams], by norm_num,
    spec_c1_all_fields_nonneg defaultParams (by norm_num [defaultParams])
      (by norm_num [defaultParams]) (by norm_num [defaultParams])
      (by norm_num [defaultParams]) (by norm_num [defaultParams])
      (by norm_num [defaultParams]) (by norm_num [defaultParams])
      (fun y v h => by
        have := defaultSched_mem y v (by simpa [defaultParams] using h)
        constructor
        · exact this.1
        · calc v ≤ 100000 := this.2
            _ ≤ defaultParams.total_grant_shares := by norm_num [defaultParams])
      2 (by norm_num)⟩

/-- C2 counterexample: at parameters where the supplied 2026 vesting
entry is 200000 while `total_grant_shares = 100000`, the engine does NOT
use the clamped value `total_grant_shares`; it uses
`min(vested[2025] + 5000, total_grant_shares) = 65000` (line 312). -/
theorem spec_c2_counterexample :
    clampCexParams.vested_shares_input 2026 = some 200000 ∧
      clampCexParams.total_grant_shares < 200000 ∧
      (optionRec clampCexParams 2).vested = 65000 ∧
      (optionRec clampCexParams 2).vested ≠ clampCexParams.total_grant_shares := by
  refine ⟨by norm_num [clampCexParams, defaultParams], by norm_num [clampCexParams, defaultParams], ?_, ?_⟩
  · norm_num [optionRec, clampCexParams, defaultParams]
  · norm_num [optionRec, clampCexParams, defaultParams]

/-- C2 amended: for every year 2026..2035 (offset n+2, n ≤ 9), writing
`raw` for the looked-up vesting value
`vested_shares_input.get(year, vested_shares_input.get(year-1, 0))`,
the engine uses `raw` itself when `raw` lies in `[0, total_grant_shares]`,
and otherwise substitutes
`min(previous year's Vested Shares + 5000, total_grant_shares)`
(not the clamp of `raw` to the interval). -/
theorem spec_c2_vested_rule (p : Params) (n : ℕ) (hn : n ≤ 9) :
    (0 ≤ (p.vested_shares_input (2024 + (n + 2))).getD
          ((p.vested_shares_input (2024 + (n + 1))).getD 0) ∧
        (p.vested_shares_input (2024 + (n + 2))).getD
          ((p.vested_shares_input (2024 + (n + 1))).getD 0) ≤ p.total_grant_shares →
      (optionRec p (n + 2)).vested =
        (p.vested_shares_input (2024 + (n + 2))).getD
          ((p.vested_shares_input (2024 + (n + 1))).getD 0)) ∧
    ((p.vested_shares_input (2024 + (n + 2))).getD
          ((p.vested_shares_input (2024 + (n + 1))).getD 0) < 0 ∨
        p.total_grant_shares < (p.vested_shares_input (2024 + (n + 2))).getD
          ((p.vested_shares_input (2024 + (n + 1))).getD 0) →
      (optionRec p (n + 2)).vested =
        min ((optionRec p (n + 1)).vested + 5000) p.total_grant_shares) := by
  constructor
  · intro h
    rw [optionRec_vested_succ, if_neg]
    push_neg
    exact ⟨h.1, h.2⟩
  · intro h
    rw [optionRec_vested_succ, if_pos]
    rcases h with h | h
    · exact Or.inl h
    · exact Or.inr h

/-- Witness for the amended C2: at `clampCexParams` and year 2026 the
looked-up value 200000 is out of range and the engine substitutes
`min(60000 + 5000, 100000)`. -/
theorem spec_c2_vested_rule_witness :
    ((0 : ℕ) ≤ 9) ∧
      (clampCexParams.total_grant_shares <
        (clampCexParams.vested_shares_input (2024 + (0 + 2))).getD
          ((clampCexParams.vested_shares_input (2024 + (0 + 1))).getD 0)) ∧
      (optionRec clampCexParams (0 + 2)).vested =
        min ((optionRec clampCexParams (0 + 1)).vested + 5000) clampCexParams.total_grant_shares :=
  ⟨by norm_num,
    by norm_num [clampCexParams, defaultParams],
    (spec_c2_vested_rule clampCexParams 0 (by norm_num)).2
      (Or.inr (by norm_num [clampCexParams, defaultParams]))⟩

/-- C8: with 20% growth, 5% common redemption, 30000 common shares at
purchase price £2.00 (the default parameters), the table has
`Share Price[2025] = 7.20`, `Unsold Common Shares[2026] = 28500` and
`Common Redemption Value[2026] = 9960` exactly. -/
theorem spec_c8_concrete_scenario :
    sharePrice defaultParams 1 = 7.2 ∧
      (commonRec defaultParams 2).unsold = 28500 ∧
      (commonRec defaultParams 2).redemptionValue = 9960 := by
  refine ⟨?_, ?_, ?_⟩ <;> norm_num [sharePrice, commonRec, defaultParams]
